import Mathlib

/-!
Verification of the request-normalization and error-classification logic of
the `Wata` payment client (`Wata/modules/payment.py`, `Wata/exceptions.py`).

Embedding conventions:
* Python `decimal.Decimal` values are modelled by their exact rational value
  (`ℚ`); every decimal occurring in the code has a finite decimal expansion.
* A Python `float` input is modelled by the decimal value of `str(x)`, the
  shortest round-trip decimal representation; this is exactly the value that
  `decimal.Decimal(str(x))` constructs, so `Decimal(str(·))` is the identity
  on the carried rational.  The final `float(amount)` conversion is likewise
  modelled as the identity on the rational value: the payload slot records a
  numeric (non-string) value.
* Python dicts built by successive `params[k] = v` assignments with pairwise
  distinct literal keys are modelled as association lists in insertion order.
* Log messages are abstracted to the category of log call the code selects;
  message formatting is not modelled.
-/

/-- A value stored in an outgoing payload / query-parameter dict.  The code
puts Python `int`, `float` and `str` values there; the constructors keep the
distinction (a rounded amount is sent as a number, never as a string). -/
inductive ParamVal where
  | int (n : ℤ)
  | float (q : ℚ)
  | str (s : String)
deriving DecidableEq

/-- Dict access `d[k]` / membership `k in d` on an insertion-ordered dict. -/
def getKey {β : Type} (k : String) : List (String × β) → Option β
  | [] => none
  | (k', v) :: rest => if k' = k then some v else getKey k rest

/-- `decimal.ROUND_HALF_UP` applied when quantizing: round to the nearest
integer, ties away from zero (Python's `ROUND_HALF_UP`). -/
def roundHalfAway (x : ℚ) : ℤ :=
  if 0 ≤ x then ⌊x + 1/2⌋ else ⌈x - 1/2⌉

/-- The quantize step of the code: quantizing to two fractional digits with
rounding mode ROUND_HALF_UP, on the rational value of the decimal. -/
def quantizeTwoHalfUp (q : ℚ) : ℚ :=
  ((roundHalfAway (q * 100) : ℤ) : ℚ) / 100

/-- The `Union[decimal.Decimal, float, int]` amount parameter.  A `float` is
carried as the decimal value of its `str` representation (see module header). -/
inductive AmountInput where
  | dec (q : ℚ)
  | flt (q : ℚ)
  | int (n : ℤ)
deriving DecidableEq

/-- The decimal value carried by an amount input. -/
def amountValue : AmountInput → ℚ
  | .dec q => q
  | .flt q => q
  | .int n => (n : ℚ)

/-- Lines 62-67 of `payment.py` (`create`): `if isinstance(amount, (int, float)):
amount = decimal.Decimal(str(amount))` followed by the half-up quantize to two
fractional digits.  `Decimal(str(·))` is the identity on the carried value. -/
def createNormalizeAmount : AmountInput → ℚ
  | .dec q => quantizeTwoHalfUp q
  | .flt q => quantizeTwoHalfUp q
  | .int n => quantizeTwoHalfUp ((n : ℚ))

/-- Lines 162-166 of `payment.py` (`search_links`, `amount_from` branch):
the same isinstance dispatch, `Decimal(str(·))` coercion and half-up quantize. -/
def searchNormalizeAmountFrom : AmountInput → ℚ
  | .dec q => quantizeTwoHalfUp q
  | .flt q => quantizeTwoHalfUp q
  | .int n => quantizeTwoHalfUp ((n : ℚ))

/-- Lines 168-172 of `payment.py` (`search_links`, `amount_to` branch). -/
def searchNormalizeAmountTo : AmountInput → ℚ
  | .dec q => quantizeTwoHalfUp q
  | .flt q => quantizeTwoHalfUp q
  | .int n => quantizeTwoHalfUp ((n : ℚ))

/-- A naive (timezone-free) Python `datetime`, as used by `search_links`. -/
structure PyDatetime where
  year : ℕ
  month : ℕ
  day : ℕ
  hour : ℕ
  minute : ℕ
  second : ℕ
  microsecond : ℕ
deriving DecidableEq

/-- Zero-pad the decimal representation of `n` to width `w`
(Python's `%0wd` formatting for the non-negative field values). -/
def padZeros (w : ℕ) (n : ℕ) : String :=
  let s := toString n
  String.mk (List.replicate (w - s.length) '0') ++ s

/-- `datetime.isoformat()` for a naive datetime:
`YYYY-MM-DDTHH:MM:SS`, with `.ffffff` appended iff the microsecond is nonzero. -/
def PyDatetime.isoformat (d : PyDatetime) : String :=
  padZeros 4 d.year ++ "-" ++ padZeros 2 d.month ++ "-" ++ padZeros 2 d.day ++ "T" ++
  padZeros 2 d.hour ++ ":" ++ padZeros 2 d.minute ++ ":" ++ padZeros 2 d.second ++
  (if d.microsecond = 0 then "" else "." ++ padZeros 6 d.microsecond)

/-- The `Union[datetime, str]` creation-time bounds of `search_links`. -/
inductive TimeInput where
  | dt (d : PyDatetime)
  | str (s : String)
deriving DecidableEq

/-- Lines 175-183 of `payment.py`: a datetime bound is replaced by its
`isoformat()` string, a string bound is stored unchanged. -/
def timeParamValue : TimeInput → ParamVal
  | .dt d => .str d.isoformat
  | .str s => .str s

/-- The `Union[str, List[str]]` currency / status filters of `search_links`. -/
inductive StrOrList where
  | str (s : String)
  | list (xs : List String)
deriving DecidableEq

/-- Lines 190-199 of `payment.py`: a list filter is replaced by
`",".join(...)`, a plain string is stored unchanged. -/
def listParamValue : StrOrList → ParamVal
  | .str s => .str s
  | .list xs => .str (String.intercalate "," xs)

/-- Arguments of `PaymentModule.create`. -/
structure CreateArgs where
  amount : AmountInput
  currency : String
  description : Option String
  order_id : Option String
  success_redirect_url : Option String
  fail_redirect_url : Option String
deriving DecidableEq

/-- Arguments of `PaymentModule.search_links`. -/
structure SearchArgs where
  amount_from : Option AmountInput
  amount_to : Option AmountInput
  creation_time_from : Option TimeInput
  creation_time_to : Option TimeInput
  order_id : Option String
  currencies : Option StrOrList
  statuses : Option StrOrList
  sorting : Option String
  skip_count : Option ℤ
  max_result_count : Option ℤ
deriving DecidableEq

/-- One `if x is not None: params[k] = f(x)` block of `search_links`. -/
def optEntry {α : Type} (k : String) (f : α → ParamVal) : Option α → List (String × ParamVal)
  | some x => [(k, f x)]
  | none => []

/-- One `if x: data[k] = x` block of `create` (Python truthiness on an
`Optional[str]`: `None` and the empty string are falsy). -/
def optTruthyEntry (k : String) : Option String → List (String × ParamVal)
  | some s => if s = "" then [] else [(k, ParamVal.str s)]
  | none => []

/-- Lines 62-86 of `payment.py`: the JSON body assembled by `create`.
`amount` and `currency` are stored unconditionally, the four optional fields
only when truthy, in source order. -/
def createPayload (a : CreateArgs) : List (String × ParamVal) :=
  ("amount", ParamVal.float (createNormalizeAmount a.amount)) ::
  ("currency", ParamVal.str a.currency) ::
  (optTruthyEntry "description" a.description ++
   (optTruthyEntry "orderId" a.order_id ++
    (optTruthyEntry "successRedirectUrl" a.success_redirect_url ++
     optTruthyEntry "failRedirectUrl" a.fail_redirect_url)))

/-- Lines 158-210 of `payment.py`: the query-parameter dict assembled by
`search_links`, in source insertion order; each block fires iff the argument
`is not None`. -/
def searchParams (a : SearchArgs) : List (String × ParamVal) :=
  optEntry "amountFrom" (fun x => ParamVal.float (searchNormalizeAmountFrom x)) a.amount_from ++
  (optEntry "amountTo" (fun x => ParamVal.float (searchNormalizeAmountTo x)) a.amount_to ++
   (optEntry "creationTimeFrom" timeParamValue a.creation_time_from ++
    (optEntry "creationTimeTo" timeParamValue a.creation_time_to ++
     (optEntry "orderId" ParamVal.str a.order_id ++
      (optEntry "currencies" listParamValue a.currencies ++
       (optEntry "statuses" listParamValue a.statuses ++
        (optEntry "sorting" ParamVal.str a.sorting ++
         (optEntry "skipCount" ParamVal.int a.skip_count ++
          optEntry "maxResultCount" ParamVal.int a.max_result_count))))))))

/-- A parsed JSON value, the shape of transport responses (`Dict[str, Any]`). -/
inductive JsonVal where
  | null
  | bool (b : Bool)
  | num (q : ℚ)
  | str (s : String)
  | arr (elems : List JsonVal)
  | obj (fields : List (String × JsonVal))

/-- A parsed JSON object: what the transport returns on success. -/
abbrev JsonObj := List (String × JsonVal)

/-- `Wata/exceptions.py`, `ApiError`: the structured error raised by the HTTP
transport on failure.  `status_code`, `message` and `response_data` are the
constructor parameters of the source class.  `error_code` is the
machine-readable code field read by `payment.py` (`e.error_code`); the HTTP
client that sets it is not part of the sources, so the field is modelled from
the spec: the transport raises a structured error exposing a status and an
error-code field. -/
structure ApiError where
  status_code : ℤ
  message : String
  response_data : Option JsonObj
  error_code : Option String

/-- `ApiError.__init__` lines 8-12: the exception text.  The branch keeps
`message` unchanged when it starts with the HTTP-status marker and formats it
with an identity f-string otherwise; the result is prefixed in both cases. -/
def apiErrorText (status_code : ℤ) (message : String) : String :=
  "API Error " ++ toString status_code ++ ": " ++
    (if message.startsWith ("HTTP " ++ toString status_code) then message else message)

/-- `ApiTimeoutError.__init__`: `super().__init__(408, message)`. -/
def mkApiTimeoutError (message : String) : ApiError :=
  ⟨408, message, none, none⟩

/-- Default message of `ApiTimeoutError`. -/
def apiTimeoutDefaultMessage : String := "Превышено время ожидания ответа от API"

/-- `ApiConnectionError.__init__`: `super().__init__(0, message)`. -/
def mkApiConnectionError (message : String) : ApiError :=
  ⟨0, message, none, none⟩

/-- Default message of `ApiConnectionError`. -/
def apiConnectionDefaultMessage : String := "Ошибка подключения к API"

/-- Modelled from the spec: the real HTTP status codes, the range 100-599
that a server response can carry. -/
def isHttpStatus (n : ℤ) : Bool :=
  (100 ≤ n) && (n ≤ 599)

/-- The category of the log call each code path of `payment.py` selects
(message formatting abstracted away, see module header). -/
inductive LogCategory where
  | createSuccess
  | createInvalidAmount
  | createUnsupportedCurrency
  | createGenericError
  | getSuccess
  | getLinkUnavailable
  | getGenericError
  | searchItemsCount
  | searchMissingItems
  | searchGenericError
deriving DecidableEq

/-- Lines 95-100 of `payment.py`: the log category chosen by `create`'s
`except ApiError` block from `e.error_code`. -/
def createErrorCategory (e : ApiError) : LogCategory :=
  if e.error_code = some "Payment:PL_1001" then .createInvalidAmount
  else if e.error_code = some "Payment:PL_1002" then .createUnsupportedCurrency
  else .createGenericError

/-- Lines 120-123 of `payment.py`: the log category chosen by
`get_link_by_uuid`'s `except ApiError` block. -/
def getLinkErrorCategory (e : ApiError) : LogCategory :=
  if e.error_code = some "Payment:PL_1003" then .getLinkUnavailable
  else .getGenericError

/-- `PaymentModule.create`, lines 88-103: build the payload, issue one POST
through the transport, return the parsed response on success; on `ApiError`
select a log category from `e.error_code` and re-raise the same error. -/
def createOp (a : CreateArgs) (post : List (String × ParamVal) → Except ApiError JsonObj) :
    Except ApiError JsonObj × LogCategory :=
  match post (createPayload a) with
  | .ok result => (.ok result, .createSuccess)
  | .error e => (.error e, createErrorCategory e)

/-- `PaymentModule.get_link_by_uuid`, lines 115-124: one GET to the endpoint
parameterized by the identifier; on `ApiError` log and re-raise unchanged. -/
def getLinkByUuidOp (uuid : String) (get : String → Except ApiError JsonObj) :
    Except ApiError JsonObj × LogCategory :=
  match get ("api/h2h/links/" ++ uuid) with
  | .ok result => (.ok result, .getSuccess)
  | .error e => (.error e, getLinkErrorCategory e)

/-- `PaymentModule.search_links`, lines 214-227: one GET with the assembled
query parameters; on success log by presence of the `items` key and return the
response unchanged; on `ApiError` log generically and re-raise unchanged. -/
def searchLinksOp (a : SearchArgs) (get : List (String × ParamVal) → Except ApiError JsonObj) :
    Except ApiError JsonObj × LogCategory :=
  match get (searchParams a) with
  | .ok result =>
      (.ok result,
        if (getKey "items" result).isSome then .searchItemsCount else .searchMissingItems)
  | .error e => (.error e, .searchGenericError)

/-- The value a truthiness-guarded optional string field contributes:
present iff the argument is a non-empty string. -/
def truthyOpt : Option String → Option ParamVal
  | some s => if s = "" then none else some (ParamVal.str s)
  | none => none

theorem getKey_optEntry_ne {α : Type} (k k' : String) (f : α → ParamVal) (o : Option α)
    (rest : List (String × ParamVal)) (h : k' ≠ k) :
    getKey k (optEntry k' f o ++ rest) = getKey k rest := by
  cases o with
  | none => rfl
  | some x => simp [optEntry, getKey, h]

theorem getKey_optEntry_ne_nil {α : Type} (k k' : String) (f : α → ParamVal) (o : Option α)
    (h : k' ≠ k) : getKey k (optEntry k' f o) = none := by
  cases o with
  | none => rfl
  | some x => simp [optEntry, getKey, h]

theorem getKey_optEntry_self {α : Type} (k : String) (f : α → ParamVal) (o : Option α)
    (rest : List (String × ParamVal)) (hrest : getKey k rest = none) :
    getKey k (optEntry k f o ++ rest) = o.map f := by
  cases o with
  | none => simpa [optEntry] using hrest
  | some x => simp [optEntry, getKey]

theorem getKey_optEntry_self_nil {α : Type} (k : String) (f : α → ParamVal) (o : Option α) :
    getKey k (optEntry k f o) = o.map f := by
  cases o with
  | none => rfl
  | some x => simp [optEntry, getKey]

theorem getKey_optTruthyEntry_ne (k k' : String) (o : Option String)
    (rest : List (String × ParamVal)) (h : k' ≠ k) :
    getKey k (optTruthyEntry k' o ++ rest) = getKey k rest := by
  cases o with
  | none => rfl
  | some s =>
      by_cases hs : s = ""
      · simp [optTruthyEntry, hs]
      · simp [optTruthyEntry, hs, getKey, h]

theorem getKey_optTruthyEntry_self (k : String) (o : Option String)
    (rest : List (String × ParamVal)) (hrest : getKey k rest = none) :
    getKey k (optTruthyEntry k o ++ rest) = truthyOpt o := by
  cases o with
  | none => simpa [optTruthyEntry, truthyOpt] using hrest
  | some s =>
      by_cases hs : s = ""
      · simpa [optTruthyEntry, truthyOpt, hs] using hrest
      · simp [optTruthyEntry, truthyOpt, hs, getKey]

theorem searchParams_amountFrom (a : SearchArgs) :
    getKey "amountFrom" (searchParams a) =
      a.amount_from.map (fun x => ParamVal.float (searchNormalizeAmountFrom x)) := by
  unfold searchParams
  rw [getKey_optEntry_self]
  rw [getKey_optEntry_ne _ _ _ _ _ (by decide), getKey_optEntry_ne _ _ _ _ _ (by decide),
    getKey_optEntry_ne _ _ _ _ _ (by decide), getKey_optEntry_ne _ _ _ _ _ (by decide),
    getKey_optEntry_ne _ _ _ _ _ (by decide), getKey_optEntry_ne _ _ _ _ _ (by decide),
    getKey_optEntry_ne _ _ _ _ _ (by decide), getKey_optEntry_ne _ _ _ _ _ (by decide),
    getKey_optEntry_ne_nil _ _ _ _ (by decide)]

theorem searchParams_amountTo (a : SearchArgs) :
    getKey "amountTo" (searchParams a) =
      a.amount_to.map (fun x => ParamVal.float (searchNormalizeAmountTo x)) := by
  unfold searchParams
  rw [getKey_optEntry_ne _ _ _ _ _ (by decide), getKey_optEntry_self]
  rw [getKey_optEntry_ne _ _ _ _ _ (by decide), getKey_optEntry_ne _ _ _ _ _ (by decide),
    getKey_optEntry_ne _ _ _ _ _ (by decide), getKey_optEntry_ne _ _ _ _ _ (by decide),
    getKey_optEntry_ne _ _ _ _ _ (by decide), getKey_optEntry_ne _ _ _ _ _ (by decide),
    getKey_optEntry_ne _ _ _ _ _ (by decide), getKey_optEntry_ne_nil _ _ _ _ (by decide)]

theorem searchParams_creationTimeFrom (a : SearchArgs) :
    getKey "creationTimeFrom" (searchParams a) = a.creation_time_from.map timeParamValue := by
  unfold searchParams
  rw [getKey_optEntry_ne _ _ _ _ _ (by decide), getKey_optEntry_ne _ _ _ _ _ (by decide),
    getKey_optEntry_self]
  rw [getKey_optEntry_ne _ _ _ _ _ (by decide), getKey_optEntry_ne _ _ _ _ _ (by decide),
    getKey_optEntry_ne _ _ _ _ _ (by decide), getKey_optEntry_ne _ _ _ _ _ (by decide),
    getKey_optEntry_ne _ _ _ _ _ (by decide), getKey_optEntry_ne _ _ _ _ _ (by decide),
    getKey_optEntry_ne_nil _ _ _ _ (by decide)]

theorem searchParams_creationTimeTo (a : SearchArgs) :
    getKey "creationTimeTo" (searchParams a) = a.creation_time_to.map timeParamValue := by
  unfold searchParams
  rw [getKey_optEntry_ne _ _ _ _ _ (by decide), getKey_optEntry_ne _ _ _ _ _ (by decide),
    getKey_optEntry_ne _ _ _ _ _ (by decide), getKey_optEntry_self]
  rw [getKey_optEntry_ne _ _ _ _ _ (by decide), getKey_optEntry_ne _ _ _ _ _ (by decide),
    getKey_optEntry_ne _ _ _ _ _ (by decide), getKey_optEntry_ne _ _ _ _ _ (by decide),
    getKey_optEntry_ne _ _ _ _ _ (by decide), getKey_optEntry_ne_nil _ _ _ _ (by decide)]

theorem searchParams_orderId (a : SearchArgs) :
    getKey "orderId" (searchParams a) = a.order_id.map ParamVal.str := by
  unfold searchParams
  rw [getKey_optEntry_ne _ _ _ _ _ (by decide), getKey_optEntry_ne _ _ _ _ _ (by decide),
    getKey_optEntry_ne _ _ _ _ _ (by decide), getKey_optEntry_ne _ _ _ _ _ (by decide),
    getKey_optEntry_self]
  rw [getKey_optEntry_ne _ _ _ _ _ (by decide), getKey_optEntry_ne _ _ _ _ _ (by decide),
    getKey_optEntry_ne _ _ _ _ _ (by decide), getKey_optEntry_ne _ _ _ _ _ (by decide),
    getKey_optEntry_ne_nil _ _ _ _ (by decide)]

theorem searchParams_currencies (a : SearchArgs) :
    getKey "currencies" (searchParams a) = a.currencies.map listParamValue := by
  unfold searchParams
  rw [getKey_optEntry_ne _ _ _ _ _ (by decide), getKey_optEntry_ne _ _ _ _ _ (by decide),
    getKey_optEntry_ne _ _ _ _ _ (by decide), getKey_optEntry_ne _ _ _ _ _ (by decide),
    getKey_optEntry_ne _ _ _ _ _ (by decide), getKey_optEntry_self]
  rw [getKey_optEntry_ne _ _ _ _ _ (by decide), getKey_optEntry_ne _ _ _ _ _ (by decide),
    getKey_optEntry_ne _ _ _ _ _ (by decide), getKey_optEntry_ne_nil _ _ _ _ (by decide)]

theorem searchParams_statuses (a : SearchArgs) :
    getKey "statuses" (searchParams a) = a.statuses.map listParamValue := by
  unfold searchParams
  rw [getKey_optEntry_ne _ _ _ _ _ (by decide), getKey_optEntry_ne _ _ _ _ _ (by decide),
    getKey_optEntry_ne _ _ _ _ _ (by decide), getKey_optEntry_ne _ _ _ _ _ (by decide),
    getKey_optEntry_ne _ _ _ _ _ (by decide), getKey_optEntry_ne _ _ _ _ _ (by decide),
    getKey_optEntry_self]
  rw [getKey_optEntry_ne _ _ _ _ _ (by decide), getKey_optEntry_ne _ _ _ _ _ (by decide),
    getKey_optEntry_ne_nil _ _ _ _ (by decide)]

theorem searchParams_sorting (a : SearchArgs) :
    getKey "sorting" (searchParams a) = a.sorting.map ParamVal.str := by
  unfold searchParams
  rw [getKey_optEntry_ne _ _ _ _ _ (by decide), getKey_optEntry_ne _ _ _ _ _ (by decide),
    getKey_optEntry_ne _ _ _ _ _ (by decide), getKey_optEntry_ne _ _ _ _ _ (by decide),
    getKey_optEntry_ne _ _ _ _ _ (by decide), getKey_optEntry_ne _ _ _ _ _ (by decide),
    getKey_optEntry_ne _ _ _ _ _ (by decide), getKey_optEntry_self]
  rw [getKey_optEntry_ne _ _ _ _ _ (by decide), getKey_optEntry_ne_nil _ _ _ _ (by decide)]

theorem searchParams_skipCount (a : SearchArgs) :
    getKey "skipCount" (searchParams a) = a.skip_count.map ParamVal.int := by
  unfold searchParams
  rw [getKey_optEntry_ne _ _ _ _ _ (by decide), getKey_optEntry_ne _ _ _ _ _ (by decide),
    getKey_optEntry_ne _ _ _ _ _ (by decide), getKey_optEntry_ne _ _ _ _ _ (by decide),
    getKey_optEntry_ne _ _ _ _ _ (by decide), getKey_optEntry_ne _ _ _ _ _ (by decide),
    getKey_optEntry_ne _ _ _ _ _ (by decide), getKey_optEntry_ne _ _ _ _ _ (by decide),
    getKey_optEntry_self]
  exact getKey_optEntry_ne_nil _ _ _ _ (by decide)

theorem searchParams_maxResultCount (a : SearchArgs) :
    getKey "maxResultCount" (searchParams a) = a.max_result_count.map ParamVal.int := by
  unfold searchParams
  rw [getKey_optEntry_ne _ _ _ _ _ (by decide), getKey_optEntry_ne _ _ _ _ _ (by decide),
    getKey_optEntry_ne _ _ _ _ _ (by decide), getKey_optEntry_ne _ _ _ _ _ (by decide),
    getKey_optEntry_ne _ _ _ _ _ (by decide), getKey_optEntry_ne _ _ _ _ _ (by decide),
    getKey_optEntry_ne _ _ _ _ _ (by decide), getKey_optEntry_ne _ _ _ _ _ (by decide),
    getKey_optEntry_ne _ _ _ _ _ (by decide), getKey_optEntry_self_nil]

theorem createPayload_amount (a : CreateArgs) :
    getKey "amount" (createPayload a) =
      some (ParamVal.float (createNormalizeAmount a.amount)) := by
  simp [createPayload, getKey]

theorem createPayload_currency (a : CreateArgs) :
    getKey "currency" (createPayload a) = some (ParamVal.str a.currency) := by
  simp [createPayload, getKey]

theorem createPayload_description (a : CreateArgs) :
    getKey "description" (createPayload a) = truthyOpt a.description := by
  show getKey "description" (_ :: _ :: _) = _
  rw [getKey, if_neg (by decide), getKey, if_neg (by decide)]
  rw [getKey_optTruthyEntry_self]
  rw [getKey_optTruthyEntry_ne _ _ _ _ (by decide),
    getKey_optTruthyEntry_ne _ _ _ _ (by decide)]
  cases h : a.fail_redirect_url with
  | none => rfl
  | some s =>
      by_cases hs : s = ""
      · simp [optTruthyEntry, hs, getKey]
      · simp [optTruthyEntry, hs, getKey]

theorem createPayload_orderId (a : CreateArgs) :
    getKey "orderId" (createPayload a) = truthyOpt a.order_id := by
  show getKey "orderId" (_ :: _ :: _) = _
  rw [getKey, if_neg (by decide), getKey, if_neg (by decide)]
  rw [getKey_optTruthyEntry_ne _ _ _ _ (by decide), getKey_optTruthyEntry_self]
  rw [getKey_optTruthyEntry_ne _ _ _ _ (by decide)]
  cases h : a.fail_redirect_url with
  | none => rfl
  | some s =>
      by_cases hs : s = ""
      · simp [optTruthyEntry, hs, getKey]
      · simp [optTruthyEntry, hs, getKey]

theorem createPayload_successRedirectUrl (a : CreateArgs) :
    getKey "successRedirectUrl" (createPayload a) = truthyOpt a.success_redirect_url := by
  show getKey "successRedirectUrl" (_ :: _ :: _) = _
  rw [getKey, if_neg (by decide), getKey, if_neg (by decide)]
  rw [getKey_optTruthyEntry_ne _ _ _ _ (by decide),
    getKey_optTruthyEntry_ne _ _ _ _ (by decide), getKey_optTruthyEntry_self]
  cases h : a.fail_redirect_url with
  | none => rfl
  | some s =>
      by_cases hs : s = ""
      · simp [optTruthyEntry, hs, getKey]
      · simp [optTruthyEntry, hs, getKey]

theorem createPayload_failRedirectUrl (a : CreateArgs) :
    getKey "failRedirectUrl" (createPayload a) = truthyOpt a.fail_redirect_url := by
  show getKey "failRedirectUrl" (_ :: _ :: _) = _
  rw [getKey, if_neg (by decide), getKey, if_neg (by decide)]
  rw [getKey_optTruthyEntry_ne _ _ _ _ (by decide),
    getKey_optTruthyEntry_ne _ _ _ _ (by decide),
    getKey_optTruthyEntry_ne _ _ _ _ (by decide)]
  cases h : a.fail_redirect_url with
  | none => rfl
  | some s =>
      by_cases hs : s = ""
      · simp [optTruthyEntry, truthyOpt, hs, getKey]
      · simp [optTruthyEntry, truthyOpt, hs, getKey]

/-- Modelled from the spec (glossary): round-half-up is the rounding mode in
which exact halves round away from zero; the spec rounds amounts to exactly
two fractional digits. -/
def specRoundHalfUpTwo (q : ℚ) : ℚ :=
  ((if q * 100 < 0 then -⌊-(q * 100) + 1/2⌋ else ⌊q * 100 + 1/2⌋ : ℤ) : ℚ) / 100

theorem roundHalfAway_eq_away (x : ℚ) :
    roundHalfAway x = if x < 0 then -⌊-x + 1/2⌋ else ⌊x + 1/2⌋ := by
  unfold roundHalfAway
  by_cases h : 0 ≤ x
  · rw [if_pos h, if_neg (not_lt.mpr h)]
  · have hx : x < 0 := lt_of_not_le h
    rw [if_neg h, if_pos hx, show x - 1/2 = -(-x + 1/2) by ring, Int.ceil_neg]

theorem quantizeTwoHalfUp_ten_five : quantizeTwoHalfUp (10.005 : ℚ) = 10.01 := by
  unfold quantizeTwoHalfUp roundHalfAway
  rw [if_pos (by norm_num), show (10.005 : ℚ) * 100 + 1/2 = ((1001 : ℤ) : ℚ) by norm_num]
  norm_num

/-- Claim C1: every amount given to `create` (as int, float or decimal) is
transmitted under the key `amount` as the round-half-up rounding of its
decimal value to two fractional digits, as a number (the `float` slot of
`ParamVal`, never the `str` slot); in particular
`create(amount=10.005, currency="RUB")` produces exactly the payload
`amount = 10.01, currency = "RUB"` with no optional keys. -/
theorem c1_amount_round_half_up :
    (∀ a : CreateArgs, getKey "amount" (createPayload a) =
        some (ParamVal.float (specRoundHalfUpTwo (amountValue a.amount)))) ∧
    createPayload ⟨AmountInput.flt 10.005, "RUB", none, none, none, none⟩ =
      [("amount", ParamVal.float 10.01), ("currency", ParamVal.str "RUB")] := by
  constructor
  · intro a
    rw [createPayload_amount]
    have h : createNormalizeAmount a.amount = specRoundHalfUpTwo (amountValue a.amount) := by
      cases a.amount <;>
        simp [createNormalizeAmount, amountValue, specRoundHalfUpTwo, quantizeTwoHalfUp,
          roundHalfAway_eq_away]
    rw [h]
  · simp [createPayload, createNormalizeAmount, optTruthyEntry, quantizeTwoHalfUp_ten_five]

/-- Claim C2, counterexample: in `search_links` the guard is `is not None`,
not truthiness, so the falsy empty string passed as `order_id` does appear in
the outgoing query parameters, contradicting the claim that a falsy optional
value never appears as a key. -/
theorem c2_counterexample :
    getKey "orderId"
        (searchParams ⟨none, none, none, none, some "", none, none, none, none, none⟩) =
      some (ParamVal.str "") := rfl

/-- Claim C2 as amended: in `create` an optional field appears iff its value
is truthy (neither `None` nor the empty string) and then under its documented
key; in `search_links` a parameter appears iff it is not `None` — falsy
non-`None` values such as the empty string or `0` are included — and then
under its documented key with the documented serialization.  No absent field
is ever present as a null-valued key (absent fields contribute no entry). -/
theorem c2_optional_field_presence (c : CreateArgs) (s : SearchArgs) :
    getKey "description" (createPayload c) = truthyOpt c.description ∧
    getKey "orderId" (createPayload c) = truthyOpt c.order_id ∧
    getKey "successRedirectUrl" (createPayload c) = truthyOpt c.success_redirect_url ∧
    getKey "failRedirectUrl" (createPayload c) = truthyOpt c.fail_redirect_url ∧
    getKey "amountFrom" (searchParams s) =
      s.amount_from.map (fun x => ParamVal.float (searchNormalizeAmountFrom x)) ∧
    getKey "amountTo" (searchParams s) =
      s.amount_to.map (fun x => ParamVal.float (searchNormalizeAmountTo x)) ∧
    getKey "creationTimeFrom" (searchParams s) = s.creation_time_from.map timeParamValue ∧
    getKey "creationTimeTo" (searchParams s) = s.creation_time_to.map timeParamValue ∧
    getKey "orderId" (searchParams s) = s.order_id.map ParamVal.str ∧
    getKey "currencies" (searchParams s) = s.currencies.map listParamValue ∧
    getKey "statuses" (searchParams s) = s.statuses.map listParamValue ∧
    getKey "sorting" (searchParams s) = s.sorting.map ParamVal.str ∧
    getKey "skipCount" (searchParams s) = s.skip_count.map ParamVal.int ∧
    getKey "maxResultCount" (searchParams s) = s.max_result_count.map ParamVal.int :=
  ⟨createPayload_description c, createPayload_orderId c, createPayload_successRedirectUrl c,
    createPayload_failRedirectUrl c, searchParams_amountFrom s, searchParams_amountTo s,
    searchParams_creationTimeFrom s, searchParams_creationTimeTo s, searchParams_orderId s,
    searchParams_currencies s, searchParams_statuses s, searchParams_sorting s,
    searchParams_skipCount s, searchParams_maxResultCount s⟩

/-- Claim C3: when the transport raises a structured `ApiError` during
`create`, `get_link_by_uuid` or `search_links`, the operation re-raises the
identical error value; the error-code field is inspected only to select the
log category (the second component), never to change the raised error. -/
theorem c3_error_propagation (c : CreateArgs) (uuid : String) (s : SearchArgs)
    (tc : List (String × ParamVal) → Except ApiError JsonObj)
    (tg : String → Except ApiError JsonObj)
    (ts : List (String × ParamVal) → Except ApiError JsonObj)
    (e : ApiError) :
    (tc (createPayload c) = Except.error e →
      createOp c tc = (Except.error e, createErrorCategory e)) ∧
    (tg ("api/h2h/links/" ++ uuid) = Except.error e →
      getLinkByUuidOp uuid tg = (Except.error e, getLinkErrorCategory e)) ∧
    (ts (searchParams s) = Except.error e →
      searchLinksOp s ts = (Except.error e, LogCategory.searchGenericError)) := by
  refine ⟨?_, ?_, ?_⟩ <;> intro h <;> simp [createOp, getLinkByUuidOp, searchLinksOp, h]

theorem c3_error_propagation_witness :
    createOp ⟨AmountInput.int 5, "RUB", none, none, none, none⟩
        (fun _ => Except.error ⟨400, "Bad Request", none, some "Payment:PL_1001"⟩) =
      (Except.error ⟨400, "Bad Request", none, some "Payment:PL_1001"⟩,
        LogCategory.createInvalidAmount) ∧
    getLinkByUuidOp "abc"
        (fun _ => Except.error ⟨400, "Bad Request", none, some "Payment:PL_1001"⟩) =
      (Except.error ⟨400, "Bad Request", none, some "Payment:PL_1001"⟩,
        LogCategory.getGenericError) ∧
    searchLinksOp ⟨none, none, none, none, none, none, none, none, none, none⟩
        (fun _ => Except.error ⟨400, "Bad Request", none, some "Payment:PL_1001"⟩) =
      (Except.error ⟨400, "Bad Request", none, some "Payment:PL_1001"⟩,
        LogCategory.searchGenericError) := by
  have h := c3_error_propagation ⟨AmountInput.int 5, "RUB", none, none, none, none⟩ "abc"
    ⟨none, none, none, none, none, none, none, none, none, none⟩
    (fun _ => Except.error ⟨400, "Bad Request", none, some "Payment:PL_1001"⟩)
    (fun _ => Except.error ⟨400, "Bad Request", none, some "Payment:PL_1001"⟩)
    (fun _ => Except.error ⟨400, "Bad Request", none, some "Payment:PL_1001"⟩)
    ⟨400, "Bad Request", none, some "Payment:PL_1001"⟩
  exact ⟨(h.1 rfl).trans (by rfl), (h.2.1 rfl).trans (by rfl), h.2.2 rfl⟩

/-- Claim C4: a list-valued `currencies` / `statuses` filter is serialized to
the single comma-joined string under one query key, and a single string value
passes through unchanged; `["RUB", "EUR"]` joins to `"RUB,EUR"`. -/
theorem c4_list_filters (s : SearchArgs) (xs : List String) (v : String) :
    getKey "currencies" (searchParams { s with currencies := some (StrOrList.list xs) }) =
      some (ParamVal.str (String.intercalate "," xs)) ∧
    getKey "currencies" (searchParams { s with currencies := some (StrOrList.str v) }) =
      some (ParamVal.str v) ∧
    getKey "statuses" (searchParams { s with statuses := some (StrOrList.list xs) }) =
      some (ParamVal.str (String.intercalate "," xs)) ∧
    getKey "statuses" (searchParams { s with statuses := some (StrOrList.str v) }) =
      some (ParamVal.str v) ∧
    String.intercalate "," ["RUB", "EUR"] = "RUB,EUR" := by
  refine ⟨?_, ?_, ?_, ?_, rfl⟩ <;>
    simp [searchParams_currencies, searchParams_statuses, listParamValue]

/-- Claim C5: the scenario search; the resulting query-parameter dict is
exactly the four documented entries in source order, including the
falsy-but-non-null `skipCount = 0`. -/
theorem c5_search_query_scenario :
    searchParams ⟨none, none, none, none, none, some (StrOrList.list ["RUB", "USD"]),
        some (StrOrList.str "Opened"), none, some 0, some 50⟩ =
      [("currencies", ParamVal.str "RUB,USD"), ("statuses", ParamVal.str "Opened"),
       ("skipCount", ParamVal.int 0), ("maxResultCount", ParamVal.int 50)] := rfl

/-- Claim C6: a creation-time bound given as a datetime is serialized to its
ISO-8601 `isoformat()` string, and a bound already given as a string is
transmitted identical to the input. -/
theorem c6_time_bounds (s : SearchArgs) (d : PyDatetime) (t : String) :
    getKey "creationTimeFrom"
        (searchParams { s with creation_time_from := some (TimeInput.dt d) }) =
      some (ParamVal.str d.isoformat) ∧
    getKey "creationTimeFrom"
        (searchParams { s with creation_time_from := some (TimeInput.str t) }) =
      some (ParamVal.str t) ∧
    getKey "creationTimeTo"
        (searchParams { s with creation_time_to := some (TimeInput.dt d) }) =
      some (ParamVal.str d.isoformat) ∧
    getKey "creationTimeTo"
        (searchParams { s with creation_time_to := some (TimeInput.str t) }) =
      some (ParamVal.str t) := by
  refine ⟨?_, ?_, ?_, ?_⟩ <;>
    simp [searchParams_creationTimeFrom, searchParams_creationTimeTo, timeParamValue]

/-- Claim C7: the amount normalization of the `amount_from` and `amount_to`
bounds in `search_links` is extensionally equal to the one applied to
`amount` in `create`, and the same input yields the same transmitted number
at all three parameter sites. -/
theorem c7_amount_sites_agree (x : AmountInput) (c : CreateArgs) (s : SearchArgs) :
    searchNormalizeAmountFrom x = createNormalizeAmount x ∧
    searchNormalizeAmountTo x = createNormalizeAmount x ∧
    getKey "amountFrom" (searchParams { s with amount_from := some x }) =
      some (ParamVal.float (createNormalizeAmount x)) ∧
    getKey "amountTo" (searchParams { s with amount_to := some x }) =
      some (ParamVal.float (createNormalizeAmount x)) ∧
    getKey "amount" (createPayload { c with amount := x }) =
      some (ParamVal.float (createNormalizeAmount x)) := by
  have hfrom : searchNormalizeAmountFrom x = createNormalizeAmount x := by cases x <;> rfl
  have hto : searchNormalizeAmountTo x = createNormalizeAmount x := by cases x <;> rfl
  refine ⟨hfrom, hto, ?_, ?_, ?_⟩
  · rw [searchParams_amountFrom]; simp [hfrom]
  · rw [searchParams_amountTo]; simp [hto]
  · rw [createPayload_amount]

/-- Claim C8: `search_links` returns the transport response unchanged — the
first component of the operation equals whatever the transport produced —
and the presence of the `items` key affects only the selected log category. -/
theorem c8_search_passthrough (a : SearchArgs)
    (t : List (String × ParamVal) → Except ApiError JsonObj) :
    (searchLinksOp a t).1 = t (searchParams a) ∧
    (∀ r : JsonObj, t (searchParams a) = Except.ok r →
      (searchLinksOp a t).2 =
        if (getKey "items" r).isSome then LogCategory.searchItemsCount
        else LogCategory.searchMissingItems) := by
  constructor
  · unfold searchLinksOp
    cases t (searchParams a) <;> rfl
  · intro r h
    simp [searchLinksOp, h]

theorem c8_search_passthrough_witness :
    (searchLinksOp ⟨none, none, none, none, none, none, none, none, none, none⟩
        (fun _ => Except.ok [("items", JsonVal.arr [])])).1 =
      Except.ok [("items", JsonVal.arr [])] ∧
    (searchLinksOp ⟨none, none, none, none, none, none, none, none, none, none⟩
        (fun _ => Except.ok [("items", JsonVal.arr [])])).2 =
      LogCategory.searchItemsCount := by
  have h := c8_search_passthrough ⟨none, none, none, none, none, none, none, none, none, none⟩
    (fun _ => Except.ok [("items", JsonVal.arr [])])
  exact ⟨h.1, (h.2 [("items", JsonVal.arr [])] rfl).trans (by rfl)⟩

/-- Claim C9, counterexample: a generic `ApiError` carrying the real HTTP
status 408 has the same status field as `ApiTimeoutError`, so the three error
kinds are not always distinguishable by status alone. -/
theorem c9_counterexample :
    (ApiError.mk 408 "Request Timeout" none none).status_code =
      (mkApiTimeoutError apiTimeoutDefaultMessage).status_code ∧
    isHttpStatus (ApiError.mk 408 "Request Timeout" none none).status_code = true :=
  ⟨rfl, rfl⟩

/-- Claim C9 as amended: a connection failure is signalled with status marker
0, which is distinct from every real HTTP status and from the timeout marker;
a timeout carries 408, distinct from the connection marker — but 408 is
itself a real HTTP status, so a timeout is not distinguishable by status from
an API error whose HTTP status is 408. -/
theorem c9_status_markers (m m' : String) (s : ℤ) :
    (mkApiConnectionError m).status_code = 0 ∧
    isHttpStatus (mkApiConnectionError m).status_code = false ∧
    (mkApiTimeoutError m').status_code = 408 ∧
    (mkApiTimeoutError m').status_code ≠ (mkApiConnectionError m).status_code ∧
    isHttpStatus (mkApiTimeoutError m').status_code = true ∧
    (isHttpStatus s = true → s ≠ (mkApiConnectionError m).status_code) := by
  refine ⟨rfl, rfl, rfl, ?_, rfl, ?_⟩
  · show (408 : ℤ) ≠ 0
    decide
  · intro hs
    simp only [isHttpStatus, Bool.and_eq_true, decide_eq_true_eq] at hs
    show s ≠ 0
    omega

theorem c9_status_markers_witness :
    isHttpStatus 200 = true ∧
    (200 : ℤ) ≠ (mkApiConnectionError apiConnectionDefaultMessage).status_code :=
  ⟨rfl, (c9_status_markers "x" "y" 200).2.2.2.2.2 rfl⟩

/-- Claim C10: for every status code and message the exception text of a
constructed `ApiError` is exactly `API Error {status_code}: {message}` — the
constructor's branch on whether the message starts with `HTTP {status_code}`
assigns the same text either way, so the condition never affects the result. -/
theorem c10_api_error_text (status_code : ℤ) (message : String) :
    apiErrorText status_code message =
      "API Error " ++ toString status_code ++ ": " ++ message := by
  simp [apiErrorText]
